import Mathlib

/-!
Shallow embedding of `src/lib/media.py` (class `Media`) from the OfficeTool
repository, together with theorems settling the frozen claims about it.

External effects (VLC, PyAudio, OpenCV, pyautogui, yt-dlp, the filesystem and
the wall clock) are modelled by explicit environment records; each facade
operation is a function from its arguments, the session state and such an
environment to an outcome record that tracks both the Python return value and
the resource / filesystem effects of the call.
-/

namespace OfficeTool

/-- Python exception kinds that can escape a call in this embedding. -/
inductive PyExn where
  | typeError
  | osError
  deriving DecidableEq, Repr

/-- A `filename` / `url` argument: `None` (standing for any non-path, non-string
value) or a Python string. -/
inductive PyVal where
  | none
  | str (s : String)
  deriving DecidableEq, Repr

/-- `isinstance(x, str)`. -/
def PyVal.isStr : PyVal → Bool
  | .str _ => true
  | .none => false

/-- A `duration` argument: a finite number (Python `int` or `float`, embedded
as `ℚ`), the float `nan`, or a non-numeric value for which
`isinstance(duration, (int, float))` is false. `nan` needs its own
constructor because it is a float (so it passes the `isinstance` check) for
which every ordering comparison is false (so `duration <= 0` does not reject
it). The infinities are left out: `-inf` compares `<= 0` and is rejected by
the guard like any non-positive float, and `+inf` is a positive number, so
neither is in the domain the claims quantify over. -/
inductive PyDur where
  | num (q : ℚ)
  | nan
  | nonNum
  deriving DecidableEq, Repr

/-- `isinstance(duration, (int, float))` — true for `nan`, which is a float. -/
def PyDur.isNum : PyDur → Bool
  | .num _ => true
  | .nan => true
  | .nonNum => false

/-- Numeric value of a duration (0 for `nan` and non-numeric arguments, whose
control paths never use it). -/
def PyDur.val : PyDur → ℚ
  | .num q => q
  | .nan => 0
  | .nonNum => 0

/-- Python's `duration <= 0`: every comparison with `nan` is false; for a
non-numeric value the `or` in the guard short-circuits before the comparison,
so the value here is irrelevant (false). -/
def PyDur.le0 : PyDur → Bool
  | .num q => decide (q ≤ 0)
  | .nan => false
  | .nonNum => false

/-- Is the duration the float `nan`? (`int(nan)` raises `ValueError`, and a
wall-clock comparison against `nan` is false.) -/
def PyDur.isNan : PyDur → Bool
  | .nan => true
  | .num _ => false
  | .nonNum => false

/-- `os.path.exists`: `os.stat(None)` raises `TypeError`, which
`genericpath.exists` does not catch (it only catches `OSError`/`ValueError`);
on a string it consults the filesystem. -/
def ospathExists (fs : String → Bool) : PyVal → Except PyExn Bool
  | .none => .error .typeError
  | .str s => .ok (fs s)

/-- A `threading.Thread` handle: all the session logic observes is `is_alive()`. -/
structure ThreadT where
  alive : Bool
  deriving DecidableEq, Repr

/-- The mutable attributes of a `Media` object that the playback session uses.
`player`/`vlcInstance` record whether `self.player`/`self.instance` currently
hold a handle (`≠ None`); `vlcInstance` renames `self.instance` because
`instance` is a Lean keyword. -/
structure MediaState where
  player : Bool
  vlcInstance : Bool
  playback_thread : Option ThreadT
  stop_event : Bool
  out_path : String
  deriving DecidableEq, Repr

/-- `Media.__init__`: no handles, no thread, stop event cleared. -/
def MediaState.init (out : String) : MediaState :=
  { player := false, vlcInstance := false, playback_thread := none
    stop_event := false, out_path := out }

/-- `self.playback_thread and self.playback_thread.is_alive()`. -/
def threadAlive (st : MediaState) : Bool :=
  match st.playback_thread with
  | some t => t.alive
  | none => false

/-- The three distinct return sites of `Media.play` (the first two both return
Python `False`, the last returns `True`). -/
inductive PlayResult where
  | fileNotFound
  | busy
  | started
  deriving DecidableEq, Repr

/-- The Python boolean actually returned by `Media.play`. -/
def PlayResult.toBool : PlayResult → Bool
  | .started => true
  | .fileNotFound => false
  | .busy => false

/-- `Media.play`: the `os.path.exists` check runs outside any exception
handler, so a `TypeError` raised there escapes the call; the busy check
returns before touching any attribute; on success the stop event is cleared
and a new (alive) worker thread is stored and started. -/
def play (st : MediaState) (filename : PyVal) (fs : String → Bool) :
    Except PyExn (PlayResult × MediaState) :=
  match ospathExists fs filename with
  | .error e => .error e
  | .ok ex =>
    if ¬ ex then .ok (.fileNotFound, st)
    else if threadAlive st then .ok (.busy, st)
    else .ok (.started,
      { st with stop_event := false, playback_thread := some ⟨true⟩ })

/-- Net effect of the `finally` block of `Media._play_in_thread`: the player is
stopped and released, the VLC instance is released, both attributes are reset
to `None`, and the stop event is cleared. -/
def workerCleanup (st : MediaState) : MediaState :=
  { st with player := false, vlcInstance := false, stop_event := false }

/-- The two return sites of `Media.stop_playback` (`False` / `True`). -/
inductive StopResult where
  | notPlaying
  | stopped
  deriving DecidableEq, Repr

/-- The Python boolean actually returned by `Media.stop_playback`. -/
def StopResult.toBool : StopResult → Bool
  | .stopped => true
  | .notPlaying => false

/-- `Media.stop_playback`, sequential semantics: with no alive worker it
returns `False` without touching the state; otherwise it sets the stop event
and joins the worker. The worker polls the stop event each tick, so joining
runs it to completion: its `finally` block (`workerCleanup`) executes before
`join` returns, and afterwards the joined thread is no longer alive. -/
def stop_playback (st : MediaState) : StopResult × MediaState :=
  if ¬ threadAlive st then (.notPlaying, st)
  else
    let st1 := { st with stop_event := true }
    let st2 := workerCleanup st1
    (.stopped, { st2 with playback_thread := some ⟨false⟩ })

/-- The read loop of `Media.record_audio`
(`for _ in range(0, int(RATE / CHUNK * duration)): data = stream.read(CHUNK)`),
with `k` iterations remaining and `i` the index of the next chunk: `some j`
when the `j`-th read raises (aborting the loop there), `none` when every read
succeeds and the loop completes. -/
def readLoopAux (readOk : Nat → Bool) : Nat → Nat → Option Nat
  | 0, _ => none
  | k + 1, i => if readOk i then readLoopAux readOk k (i + 1) else some i

/-- First failing read among chunks `0 .. n-1`, if any. -/
def firstFail (readOk : Nat → Bool) (n : Nat) : Option Nat :=
  readLoopAux readOk n 0

/-- `int(RATE / CHUNK * duration)` with `RATE = 44100`, `CHUNK = 1024`.
`44100 / 1024` is exact in binary floating point and the products reaching
this expression stay well inside 53 bits, so the Python value is the exact
rational `44100 * duration / 1024`; `int` truncates toward zero, which on the
positive durations that reach the loop is the floor, i.e. the integer
division `(44100 * num d) / (1024 * den d)`. -/
def numChunks (d : ℚ) : Nat :=
  ((44100 * d.num) / (1024 * (d.den : ℤ))).toNat

/-- Chunk count the spec asserts. Modelled from the spec:
"exactly `ceil(sampleRate * duration / chunkSize)` chunks". -/
def specCeilChunks (d : ℚ) : ℤ :=
  ⌈(44100 : ℚ) * d / 1024⌉

/-- Behaviour of the external world during one `record_audio` call. -/
structure AudioEnv where
  /-- `pyaudio.PyAudio()` succeeds -/
  pyaudioOk : Bool
  /-- `audio.open(...)` acquires the microphone stream -/
  openOk : Bool
  /-- the `i`-th `stream.read(CHUNK)` succeeds -/
  readOk : Nat → Bool
  /-- the output directory exists when `wave.open(file_path, 'wb')` runs -/
  dirExists : Bool
  /-- header setup and `writeframes` succeed, given that the file opened -/
  writeOk : Bool

/-- Observable outcome of one `record_audio` call: the Python return value
plus the device and filesystem effects of the call. -/
structure AudioOutcome where
  /-- the boolean returned to the caller -/
  result : Bool
  /-- some PyAudio API call was made -/
  deviceTouched : Bool
  /-- the microphone stream was acquired at some point -/
  streamOpened : Bool
  /-- `stream.stop_stream()` and `stream.close()` ran -/
  streamReleased : Bool
  /-- `audio.terminate()` ran -/
  terminated : Bool
  /-- number of successful `stream.read` calls -/
  chunksRead : Nat
  /-- a file was created at the destination path (`wave.open(..., 'wb')`
  creates the file even when a later write fails) -/
  fileCreated : Bool
  /-- `os.makedirs` was called (`record_audio` never calls it) -/
  madeDir : Bool
  /-- the destination path, when control reached its construction -/
  target : Option String
  deriving DecidableEq, Repr

/-- `Media.record_audio`. Control flow mirrors the source: the duration is
validated first, before any device call; then a `try` block creates PyAudio,
acquires the stream, runs the read loop, stops/closes the stream and
terminates PyAudio, and only then builds `out_path + "/" + filename` and
opens and writes the WAV file. The `except Exception` handler returns `False`
but performs no release of its own — the function has no `finally` block, so
an exception raised before the release lines skips them. A `nan` duration
passes the guard (`nan <= 0` is false) and is only detected when
`int(RATE / CHUNK * duration)` raises `ValueError` — after the stream was
acquired. -/
def record_audio (out : String) (filename : PyVal) (duration : PyDur)
    (env : AudioEnv) : AudioOutcome :=
  if ¬ duration.isNum ∨ duration.le0 then
    -- `return False` at the validation check: nothing was touched
    { result := false, deviceTouched := false, streamOpened := false,
      streamReleased := false, terminated := false, chunksRead := 0,
      fileCreated := false, madeDir := false, target := none }
  else if ¬ env.pyaudioOk then
    -- `pyaudio.PyAudio()` raised; the handler returns `False`
    { result := false, deviceTouched := true, streamOpened := false,
      streamReleased := false, terminated := false, chunksRead := 0,
      fileCreated := false, madeDir := false, target := none }
  else if ¬ env.openOk then
    -- `audio.open` raised; the handler returns `False` (the PyAudio instance
    -- is never terminated, but no stream was acquired)
    { result := false, deviceTouched := true, streamOpened := false,
      streamReleased := false, terminated := false, chunksRead := 0,
      fileCreated := false, madeDir := false, target := none }
  else if duration.isNan then
    -- `int(RATE / CHUNK * nan)` raised `ValueError` at the `for` line; the
    -- handler returns `False`: the stream is neither stopped nor closed and
    -- PyAudio is not terminated
    { result := false, deviceTouched := true, streamOpened := true,
      streamReleased := false, terminated := false, chunksRead := 0,
      fileCreated := false, madeDir := false, target := none }
  else
    match firstFail env.readOk (numChunks duration.val) with
    | some i =>
      -- `stream.read` raised mid-loop; the handler returns `False`: the
      -- stream is neither stopped nor closed and PyAudio is not terminated
      { result := false, deviceTouched := true, streamOpened := true,
        streamReleased := false, terminated := false, chunksRead := i,
        fileCreated := false, madeDir := false, target := none }
    | none =>
      -- loop completed: `stop_stream`, `close`, `terminate` all run, then
      -- the destination path is built
      match filename with
      | .none =>
        -- `self.out_path + "/" + filename` raised `TypeError`; caught
        { result := false, deviceTouched := true, streamOpened := true,
          streamReleased := true, terminated := true,
          chunksRead := numChunks duration.val,
          fileCreated := false, madeDir := false, target := none }
      | .str f =>
        if ¬ env.dirExists then
          -- `wave.open` raised (directory absent); caught; device already released
          { result := false, deviceTouched := true, streamOpened := true,
            streamReleased := true, terminated := true,
            chunksRead := numChunks duration.val,
            fileCreated := false, madeDir := false,
            target := some (out ++ "/" ++ f) }
        else if ¬ env.writeOk then
          -- `wave.open` created the file but a write raised; caught
          { result := false, deviceTouched := true, streamOpened := true,
            streamReleased := true, terminated := true,
            chunksRead := numChunks duration.val,
            fileCreated := true, madeDir := false,
            target := some (out ++ "/" ++ f) }
        else
          -- normal completion
          { result := true, deviceTouched := true, streamOpened := true,
            streamReleased := true, terminated := true,
            chunksRead := numChunks duration.val,
            fileCreated := true, madeDir := false,
            target := some (out ++ "/" ++ f) }

/-- Behaviour of the external world during one `record_video` call. -/
structure VideoEnv where
  /-- `cap.isOpened()` — the default webcam could be opened -/
  camOk : Bool
  /-- the `i`-th `cap.read()` returns a frame (`ret` is true) -/
  frameOk : Nat → Bool
  /-- number of loop iterations the wall-clock deadline
  (`time() - start_time < duration`) admits -/
  deadlineIters : Nat
  /-- the output directory exists when `cv2.VideoWriter` opens the file -/
  dirExists : Bool

/-- Observable outcome of one `record_video` call. -/
structure VideoOutcome where
  /-- the boolean returned to the caller -/
  result : Bool
  /-- the camera was opened -/
  camOpened : Bool
  /-- `cap.release()` ran -/
  camReleased : Bool
  /-- the `cv2.VideoWriter` was constructed -/
  writerOpened : Bool
  /-- `out.release()` ran -/
  writerReleased : Bool
  /-- number of `out.write(frame)` calls -/
  framesWritten : Nat
  /-- a file was created at the destination path -/
  fileCreated : Bool
  /-- `os.makedirs` was called (`record_video` never calls it) -/
  madeDir : Bool
  /-- the destination path, when control reached its construction -/
  target : Option String
  deriving DecidableEq, Repr

/-- The wall-clock frame loop of `record_video`: the deadline admits
`iters` iterations; each iteration reads a frame and, if the read succeeded,
writes it; the first failed read breaks the loop. Returns the number of
frames written. -/
def framesCaptured (frameOk : Nat → Bool) (iters : Nat) : Nat :=
  match firstFail frameOk iters with
  | some i => i
  | none => iters

/-- `Media.record_video`. The duration is validated first; then, inside
`try`, the webcam is opened and checked (`return False` when it cannot be
opened — the capture object is dropped without `cap.release()`), the
destination path is built, the writer is constructed at fixed 20 fps /
640×480 XVID, and the wall-clock loop reads and writes frames, breaking at
the first failed read. After the loop `cap.release()` and `out.release()`
run and the call returns `True`. `cv2.VideoWriter` does not raise when the
output directory is absent: it silently opens nothing and `out.write`
becomes a no-op, so a missing directory changes only whether a file
appears, not the return value. A `nan` duration passes the guard and makes
the wall-clock condition `time() - start_time < duration` false at once, so
the loop body never runs and the call still releases both handles and
returns `True` with an empty recording. -/
def record_video (out : String) (filename : PyVal) (duration : PyDur)
    (env : VideoEnv) : VideoOutcome :=
  if ¬ duration.isNum ∨ duration.le0 then
    { result := false, camOpened := false, camReleased := false,
      writerOpened := false, writerReleased := false, framesWritten := 0,
      fileCreated := false, madeDir := false, target := none }
  else if ¬ env.camOk then
    -- `cap.isOpened()` false: `return False`
    { result := false, camOpened := false, camReleased := false,
      writerOpened := false, writerReleased := false, framesWritten := 0,
      fileCreated := false, madeDir := false, target := none }
  else
    match filename with
    | .none =>
      -- `self.out_path + "/" + filename` raises `TypeError`; the handler
      -- returns `False`; the opened camera is not released on this path
      { result := false, camOpened := true, camReleased := false,
        writerOpened := false, writerReleased := false, framesWritten := 0,
        fileCreated := false, madeDir := false, target := none }
    | .str f =>
      { result := true, camOpened := true, camReleased := true,
        writerOpened := true, writerReleased := true,
        framesWritten := framesCaptured env.frameOk
          (if duration.isNan then 0 else env.deadlineIters),
        fileCreated := env.dirExists, madeDir := false,
        target := some (out ++ "/" ++ f) }

/-- Behaviour of the external world during one `screenshot` call. -/
structure ShotEnv where
  /-- `pyautogui.screenshot()` succeeds -/
  grabOk : Bool
  /-- the output directory exists when `screenshot.save` runs -/
  dirExists : Bool
  /-- encoding and writing the PNG succeed, given that the file opened -/
  saveOk : Bool

/-- Observable outcome of one `screenshot` call. -/
structure ShotOutcome where
  /-- the boolean returned to the caller -/
  result : Bool
  /-- a file was created at the destination path -/
  fileCreated : Bool
  /-- `os.makedirs` was called (`screenshot` never calls it) -/
  madeDir : Bool
  /-- the destination path, when control reached its construction -/
  target : Option String
  deriving DecidableEq, Repr

/-- `Media.screenshot`. The whole body is inside `try`: the destination path
is built (a non-string filename raises `TypeError` there, caught by the
handler), the screen is grabbed, and the image is saved; `save` opens the
file — creating it when the directory exists — and then encodes into it.
The `except` handler returns `False`. -/
def screenshot (out : String) (filename : PyVal) (env : ShotEnv) :
    ShotOutcome :=
  match filename with
  | .none =>
    { result := false, fileCreated := false, madeDir := false, target := none }
  | .str f =>
    if ¬ env.grabOk then
      { result := false, fileCreated := false, madeDir := false,
        target := some (out ++ "/" ++ f) }
    else if ¬ env.dirExists then
      -- `save` raised (directory absent); caught
      { result := false, fileCreated := false, madeDir := false,
        target := some (out ++ "/" ++ f) }
    else if ¬ env.saveOk then
      -- the file opened but encoding raised; caught
      { result := false, fileCreated := true, madeDir := false,
        target := some (out ++ "/" ++ f) }
    else
      { result := true, fileCreated := true, madeDir := false,
        target := some (out ++ "/" ++ f) }

/-- Behaviour of the external world during one `download` call. -/
structure DlEnv where
  /-- the output directory already exists at the `os.path.exists` check -/
  dirExists : Bool
  /-- `os.makedirs` succeeds (it raises `OSError` otherwise) -/
  mkdirOk : Bool
  /-- the yt-dlp extract/prepare/download chain succeeds -/
  dlOk : Bool
  /-- the filename yt-dlp derives from the output template -/
  dlName : String

/-- Observable outcome of one `download` call. -/
structure DlOutcome where
  /-- the string returned to the caller (`None` on failure) -/
  filePath : Option String
  /-- `os.makedirs` was called -/
  madeDir : Bool
  deriving DecidableEq, Repr

/-- `Media.download`. The url guard
(`not url or not isinstance(url, str)`) runs first, rejecting `None`,
non-strings and the empty string with return value `None`; the directory
check and `os.makedirs` run next, OUTSIDE the `try` block, so a failing
`makedirs` raises past the facade; the yt-dlp calls run inside `try` with
handlers for `DownloadError`, `ExtractorError` and bare `Exception`, all
returning `None`. -/
def download (out : String) : PyVal → DlEnv → Except PyExn DlOutcome
  | .none, _ => .ok { filePath := none, madeDir := false }
  | .str u, env =>
    if u = "" then .ok { filePath := none, madeDir := false }
    else if ¬ env.dirExists then
      if ¬ env.mkdirOk then .error .osError
      else if env.dlOk then
        .ok { filePath := some (out ++ "/" ++ env.dlName), madeDir := true }
      else .ok { filePath := none, madeDir := true }
    else
      if env.dlOk then
        .ok { filePath := some (out ++ "/" ++ env.dlName), madeDir := false }
      else .ok { filePath := none, madeDir := false }

/-- When every read succeeds the loop completes. -/
theorem readLoopAux_all_ok (readOk : Nat → Bool)
    (h : ∀ j, readOk j = true) : ∀ k i, readLoopAux readOk k i = none := by
  intro k
  induction k with
  | zero => intro i; rfl
  | succ k ih =>
    intro i
    rw [readLoopAux, h i]
    simpa using ih (i + 1)

/-- When every read succeeds, there is no first failure. -/
theorem firstFail_all_ok (readOk : Nat → Bool) (n : Nat)
    (h : ∀ j, readOk j = true) : firstFail readOk n = none :=
  readLoopAux_all_ok readOk h n 0

/-- The loop aborts exactly at the first failing read. -/
theorem readLoopAux_first (readOk : Nat → Bool) :
    ∀ (k s i : Nat), s ≤ i → i < s + k →
      (∀ j, s ≤ j → j < i → readOk j = true) → readOk i = false →
      readLoopAux readOk k s = some i := by
  intro k
  induction k with
  | zero => intro s i h1 h2 _ _; omega
  | succ k ih =>
    intro s i h1 h2 hpre hfail
    by_cases hs : s = i
    · subst hs
      rw [readLoopAux, hfail]
      simp
    · have hsi : s < i := lt_of_le_of_ne h1 hs
      have hok : readOk s = true := hpre s le_rfl hsi
      rw [readLoopAux, hok]
      simpa using ih (s + 1) i hsi (by omega)
        (fun j hj1 hj2 => hpre j (by omega) hj2) hfail

/-- With the first failing read at index `i < n`, `firstFail` reports `i`. -/
theorem firstFail_first (readOk : Nat → Bool) (n i : Nat) (hin : i < n)
    (hpre : ∀ j, j < i → readOk j = true) (hfail : readOk i = false) :
    firstFail readOk n = some i :=
  readLoopAux_first readOk n 0 i (Nat.zero_le i) (by omega)
    (fun j _ hj => hpre j hj) hfail

end OfficeTool

namespace OfficeTool

/-- C2: `play` on an existing file while a worker is alive returns the busy
failure and leaves the whole session state (player handle, engine instance,
worker thread, cancellation flag) unchanged. -/
theorem play_busy_rejects_unchanged (st : MediaState) (s : String)
    (fs : String → Bool) (hfs : fs s = true) (halive : threadAlive st = true) :
    play st (.str s) fs = .ok (.busy, st) := by
  simp [play, ospathExists, hfs, halive]

/-- Witness for C2 at a concrete busy state. -/
theorem play_busy_rejects_unchanged_witness :
    play { player := true, vlcInstance := true, playback_thread := some ⟨true⟩,
           stop_event := false, out_path := "../output" }
      (.str "a.mp4") (fun _ => true) =
      .ok (.busy,
        { player := true, vlcInstance := true, playback_thread := some ⟨true⟩,
          stop_event := false, out_path := "../output" }) :=
  play_busy_rejects_unchanged _ "a.mp4" (fun _ => true) rfl rfl

/-- C9: `stop_playback` with no alive worker (no thread ever created, or the
previous worker already terminated) returns the not-playing failure and leaves
the state unchanged. -/
theorem stop_playback_not_playing (st : MediaState)
    (h : threadAlive st = false) :
    stop_playback st = (.notPlaying, st) := by
  simp [stop_playback, h]

/-- Witness for C9 on a freshly initialized state. -/
theorem stop_playback_not_playing_witness :
    stop_playback (MediaState.init "../output") =
      (.notPlaying, MediaState.init "../output") :=
  stop_playback_not_playing _ rfl

/-- C3: in a sequential execution, if `stop_playback` returns success then the
resulting state holds no player handle and no engine instance (the worker's
`finally` ran before the join returned), and an immediate `play` on an
existing file starts playback rather than failing busy. -/
theorem stop_then_play_not_busy (st st1 : MediaState) (s : String)
    (fs : String → Bool) (hstop : stop_playback st = (.stopped, st1))
    (hfs : fs s = true) :
    st1.player = false ∧ st1.vlcInstance = false ∧
      play st1 (.str s) fs =
        .ok (.started,
          { st1 with stop_event := false, playback_thread := some ⟨true⟩ }) := by
  by_cases halive : threadAlive st = true
  · have h1 : st1 = { workerCleanup { st with stop_event := true } with
        playback_thread := some ⟨false⟩ } := by
      have h2 := hstop
      simp [stop_playback, halive] at h2
      exact h2.symm
    subst h1
    refine ⟨rfl, rfl, ?_⟩
    simp [play, ospathExists, hfs, threadAlive, workerCleanup]
  · exfalso
    rw [Bool.not_eq_true] at halive
    have hst : stop_playback st = (.notPlaying, st) := by
      simp [stop_playback, halive]
    rw [hst] at hstop
    simp at hstop

/-- Witness for C3: stop an active session, then play again. -/
theorem stop_then_play_not_busy_witness :
    ({ player := false, vlcInstance := false, playback_thread := some ⟨false⟩,
       stop_event := false, out_path := "../output" } : MediaState).player = false ∧
    play { player := false, vlcInstance := false, playback_thread := some ⟨false⟩,
           stop_event := false, out_path := "../output" }
      (.str "a.mp4") (fun _ => true) =
      .ok (.started,
        { player := false, vlcInstance := false, playback_thread := some ⟨true⟩,
          stop_event := false, out_path := "../output" }) :=
  have h := stop_then_play_not_busy
    { player := true, vlcInstance := true, playback_thread := some ⟨true⟩,
      stop_event := true, out_path := "../output" }
    { player := false, vlcInstance := false, playback_thread := some ⟨false⟩,
      stop_event := false, out_path := "../output" }
    "a.mp4" (fun _ => true) rfl rfl
  ⟨h.1, h.2.2⟩

/-- The integer division in `numChunks` is the floor of the exact rational
chunk count `44100 / 1024 * d`. -/
theorem numChunks_div_eq_floor (d : ℚ) :
    (44100 * d.num) / (1024 * (d.den : ℤ)) = ⌊(44100 : ℚ) / 1024 * d⌋ := by
  have hden : ((d.den : ℚ)) ≠ 0 := by
    exact_mod_cast d.den_nz
  have hq : (44100 : ℚ) / 1024 * d =
      ((44100 * d.num : ℤ) : ℚ) / ((1024 * d.den : ℕ) : ℚ) := by
    conv_lhs => rw [← Rat.num_div_den d]
    push_cast
    field_simp
  rw [hq, Rat.floor_intCast_div_natCast]
  norm_cast

/-- A positive numeric duration passes the validation check
`not isinstance(duration, (int, float)) or duration <= 0`. -/
theorem valid_duration_cond (d : ℚ) (hd : 0 < d) :
    ¬ (¬ (PyDur.num d).isNum = true ∨ (PyDur.num d).le0 = true) := by
  simp [PyDur.isNum, PyDur.le0, hd.not_le]

/-- `nan` also passes the validation check: it is a float and `nan <= 0`
is false. -/
theorem nan_passes_guard :
    ¬ (¬ PyDur.nan.isNum = true ∨ PyDur.nan.le0 = true) := by
  simp [PyDur.isNum, PyDur.le0]

/-- A finite numeric duration is not `nan`. -/
theorem num_not_nan (d : ℚ) : ¬ (PyDur.num d).isNan = true := by
  simp [PyDur.isNan]

/-- A negated boolean hypothesis, as an equation. -/
theorem bool_not_true {b : Bool} (h : ¬ b = true) : b = false := by
  rw [Bool.not_eq_true] at h
  exact h

/-- For a positive duration the floor is nonnegative, so `numChunks` casts
back to the integer division exactly. -/
theorem numChunks_cast (d : ℚ) (hd : 0 < d) :
    (numChunks d : ℤ) = ⌊(44100 : ℚ) / 1024 * d⌋ := by
  rw [numChunks, Int.toNat_of_nonneg, numChunks_div_eq_floor]
  apply Int.ediv_nonneg
  · have : 0 < d.num := Rat.num_pos.mpr hd
    positivity
  · positivity

/-- C4 counterexample: at duration 1 the code's loop bound is
`int(44100 / 1024 * 1) = 43` chunks, while the claimed count
`ceil(44100 * 1 / 1024)` is 44. -/
theorem record_audio_chunks_ne_ceil :
    (record_audio "../output" (.str "out.wav") (.num 1)
        { pyaudioOk := true, openOk := true, readOk := fun _ => true,
          dirExists := true, writeOk := true }).chunksRead = 43 ∧
      specCeilChunks 1 = 44 ∧ (43 : ℤ) ≠ 44 := by
  refine ⟨by decide, ?_, by decide⟩
  rw [specCeilChunks, Int.ceil_eq_iff]
  norm_num

/-- C4 (amended): for every positive duration, with the device healthy and
every read succeeding, `record_audio` reads exactly
`int(44100 * duration / 1024)` chunks — the floor of the rational chunk
count, not its ceiling. -/
theorem record_audio_chunk_count (out : String) (filename : PyVal) (d : ℚ)
    (env : AudioEnv) (hd : 0 < d) (hpa : env.pyaudioOk = true)
    (hopen : env.openOk = true) (hread : ∀ i, env.readOk i = true) :
    (record_audio out filename (.num d) env).chunksRead = numChunks d ∧
      (numChunks d : ℤ) = ⌊(44100 : ℚ) / 1024 * d⌋ := by
  refine ⟨?_, numChunks_cast d hd⟩
  rw [record_audio.eq_def, if_neg (valid_duration_cond d hd),
    if_neg (by simp [hpa]), if_neg (by simp [hopen]),
    if_neg (num_not_nan d),
    show (PyDur.num d).val = d from rfl, firstFail_all_ok _ _ hread]
  cases filename with
  | none => rfl
  | str f =>
    by_cases h1 : env.dirExists <;> by_cases h2 : env.writeOk <;>
      simp [h1, h2]

/-- Witness for C4's amended theorem at duration 2. -/
theorem record_audio_chunk_count_witness :
    (record_audio "../output" (.str "out.wav") (.num 2)
        { pyaudioOk := true, openOk := true, readOk := fun _ => true,
          dirExists := true, writeOk := true }).chunksRead = numChunks 2 :=
  (record_audio_chunk_count "../output" (.str "out.wav") 2 _
    (by norm_num) rfl rfl (fun _ => rfl)).1

/-- C1 counterexample: with the microphone stream acquired and the very first
`stream.read` raising, `record_audio` returns `False` with the stream still
open: neither `stop_stream`/`close` nor `terminate` ran, so the device handle
is leaked on the read-failure exit path. -/
theorem record_audio_read_failure_leaks :
    record_audio "../output" (.str "out.wav") (.num 1)
        { pyaudioOk := true, openOk := true, readOk := fun _ => false,
          dirExists := true, writeOk := true } =
      { result := false, deviceTouched := true, streamOpened := true,
        streamReleased := false, terminated := false, chunksRead := 0,
        fileCreated := false, madeDir := false, target := none } := by
  decide

/-- C1 (amended): once the stream is acquired, the device handle is released
on normal completion and on the encode/write-failure paths (the release runs
before the file write), but a read failure mid-loop reaches the `except`
handler without any release: the stream stays open and PyAudio is not
terminated when the call returns `False`. -/
theorem record_audio_release_paths (out : String) (filename : PyVal) (d : ℚ)
    (env : AudioEnv) (hd : 0 < d) (hpa : env.pyaudioOk = true)
    (hopen : env.openOk = true) :
    (firstFail env.readOk (numChunks d) = none →
      (record_audio out filename (.num d) env).streamReleased = true ∧
        (record_audio out filename (.num d) env).terminated = true) ∧
    (∀ i, firstFail env.readOk (numChunks d) = some i →
      (record_audio out filename (.num d) env).streamOpened = true ∧
        (record_audio out filename (.num d) env).streamReleased = false ∧
        (record_audio out filename (.num d) env).terminated = false ∧
        (record_audio out filename (.num d) env).result = false) := by
  constructor
  · intro hnone
    rw [record_audio.eq_def, if_neg (valid_duration_cond d hd),
      if_neg (by simp [hpa]), if_neg (by simp [hopen]),
      if_neg (num_not_nan d),
      show (PyDur.num d).val = d from rfl, hnone]
    cases filename with
    | none => exact ⟨rfl, rfl⟩
    | str f =>
      by_cases h1 : env.dirExists <;> by_cases h2 : env.writeOk <;>
        simp [h1, h2]
  · intro i hsome
    rw [record_audio.eq_def, if_neg (valid_duration_cond d hd),
      if_neg (by simp [hpa]), if_neg (by simp [hopen]),
      if_neg (num_not_nan d),
      show (PyDur.num d).val = d from rfl, hsome]
    exact ⟨rfl, rfl, rfl, rfl⟩

/-- Witness for C1's amended theorem: release on the complete-loop path,
leak on the read-failure path, at concrete inputs. -/
theorem record_audio_release_paths_witness :
    ((record_audio "../output" (.str "a.wav") (.num 1)
        { pyaudioOk := true, openOk := true, readOk := fun _ => true,
          dirExists := true, writeOk := false }).streamReleased = true ∧
      (record_audio "../output" (.str "a.wav") (.num 1)
        { pyaudioOk := true, openOk := true, readOk := fun _ => true,
          dirExists := true, writeOk := false }).terminated = true) ∧
    ((record_audio "../output" (.str "a.wav") (.num 1)
        { pyaudioOk := true, openOk := true, readOk := fun _ => false,
          dirExists := true, writeOk := true }).streamOpened = true ∧
      (record_audio "../output" (.str "a.wav") (.num 1)
        { pyaudioOk := true, openOk := true, readOk := fun _ => false,
          dirExists := true, writeOk := true }).streamReleased = false) :=
  have h1 := record_audio_release_paths "../output" (.str "a.wav") 1
    { pyaudioOk := true, openOk := true, readOk := fun _ => true,
      dirExists := true, writeOk := false } (by norm_num) rfl rfl
  have h2 := record_audio_release_paths "../output" (.str "a.wav") 1
    { pyaudioOk := true, openOk := true, readOk := fun _ => false,
      dirExists := true, writeOk := true } (by norm_num) rfl rfl
  have h2' := h2.2 0 (by decide)
  ⟨h1.1 (by decide), h2'.1, h2'.2.1⟩

/-- C10: for a positive duration, a device-acquisition failure (PyAudio
construction or stream open raising) makes `record_audio` return `False`
without creating the destination file — the write is never reached; and in
general the output file is created only after the entire read loop has
completed successfully. -/
theorem record_audio_acquire_fail_no_file (out : String) (filename : PyVal)
    (d : ℚ) (env : AudioEnv) (hd : 0 < d) :
    (env.pyaudioOk = false ∨ env.openOk = false →
      (record_audio out filename (.num d) env).result = false ∧
        (record_audio out filename (.num d) env).fileCreated = false ∧
        (record_audio out filename (.num d) env).target = none) ∧
    ((record_audio out filename (.num d) env).fileCreated = true →
      firstFail env.readOk (numChunks d) = none) := by
  constructor
  · intro hdev
    rw [record_audio.eq_def, if_neg (valid_duration_cond d hd)]
    rcases hdev with h | h
    · rw [if_pos (by simp [h])]
      exact ⟨rfl, rfl, rfl⟩
    · by_cases hpa : env.pyaudioOk = true
      · rw [if_neg (by simp [hpa]), if_pos (by simp [h])]
        exact ⟨rfl, rfl, rfl⟩
      · rw [if_pos (by simpa using hpa)]
        exact ⟨rfl, rfl, rfl⟩
  · intro hfile
    by_cases hpa : env.pyaudioOk = true
    · by_cases hopen : env.openOk = true
      · rcases hff : firstFail env.readOk (numChunks d) with _ | i
        · rfl
        · exfalso
          rw [record_audio.eq_def, if_neg (valid_duration_cond d hd),
            if_neg (by simp [hpa]), if_neg (by simp [hopen]),
            if_neg (num_not_nan d),
            show (PyDur.num d).val = d from rfl, hff] at hfile
          exact Bool.noConfusion hfile
      · exfalso
        rw [record_audio.eq_def, if_neg (valid_duration_cond d hd),
          if_neg (by simp [hpa]), if_pos (by simpa using hopen)] at hfile
        exact Bool.noConfusion hfile
    · exfalso
      rw [record_audio.eq_def, if_neg (valid_duration_cond d hd),
        if_pos (by simpa using hpa)] at hfile
      exact Bool.noConfusion hfile

/-- Witness for C10 with a failing stream acquisition at duration 5. -/
theorem record_audio_acquire_fail_no_file_witness :
    (record_audio "../output" (.str "out.wav") (.num 5)
        { pyaudioOk := true, openOk := false, readOk := fun _ => true,
          dirExists := true, writeOk := true }).result = false ∧
    (record_audio "../output" (.str "out.wav") (.num 5)
        { pyaudioOk := true, openOk := false, readOk := fun _ => true,
          dirExists := true, writeOk := true }).fileCreated = false :=
  have h := (record_audio_acquire_fail_no_file "../output" (.str "out.wav") 5
    { pyaudioOk := true, openOk := false, readOk := fun _ => true,
      dirExists := true, writeOk := true } (by norm_num)).1 (Or.inr rfl)
  ⟨h.1, h.2.1⟩

/-- C5 counterexample: `nan` is not a positive number, yet it passes the
guard `not isinstance(duration, (int, float)) or duration <= 0` — it is a
float and `nan <= 0` is false. `record_audio(nan)` touches the device,
acquiring and then leaking the microphone stream, before returning `False`;
`record_video(nan)` opens the camera, creates the output file and returns
`True`. Both contradict "returns a failure before any device is touched and
without creating an output file". -/
theorem record_nan_not_rejected :
    (record_audio "../output" (.str "o.wav") PyDur.nan
        { pyaudioOk := true, openOk := true, readOk := fun _ => true,
          dirExists := true, writeOk := true }).deviceTouched = true ∧
    (record_audio "../output" (.str "o.wav") PyDur.nan
        { pyaudioOk := true, openOk := true, readOk := fun _ => true,
          dirExists := true, writeOk := true }).streamOpened = true ∧
    (record_audio "../output" (.str "o.wav") PyDur.nan
        { pyaudioOk := true, openOk := true, readOk := fun _ => true,
          dirExists := true, writeOk := true }).streamReleased = false ∧
    (record_video "../output" (.str "o.avi") PyDur.nan
        { camOk := true, frameOk := fun _ => true, deadlineIters := 9,
          dirExists := true }).result = true ∧
    (record_video "../output" (.str "o.avi") PyDur.nan
        { camOk := true, frameOk := fun _ => true, deadlineIters := 9,
          dirExists := true }).fileCreated = true := by
  decide

/-- C5 (amended): a duration that is non-numeric, or numeric and `<= 0`
(for example 0 or -1), is rejected by both recorders before any device is
touched and without creating an output file. The float `nan`, although not
a positive number, is not rejected: it passes the `isinstance` / `<= 0`
guard, so `record_audio(nan)` acquires the microphone and returns `False`
only when `int(nan)` raises — with the device touched and the stream left
open — and `record_video(nan)` opens the camera, creates the output file
when the directory exists, runs no loop iteration (the wall-clock
comparison with `nan` is false) and returns `True`. -/
theorem record_invalid_duration_no_side_effects (out : String)
    (filename : PyVal) (d : PyDur) (ae : AudioEnv) (ve : VideoEnv)
    (hbad : d = PyDur.nonNum ∨ ∃ q, d = PyDur.num q ∧ q ≤ 0) :
    (record_audio out filename d ae =
      { result := false, deviceTouched := false, streamOpened := false,
        streamReleased := false, terminated := false, chunksRead := 0,
        fileCreated := false, madeDir := false, target := none } ∧
     record_video out filename d ve =
      { result := false, camOpened := false, camReleased := false,
        writerOpened := false, writerReleased := false, framesWritten := 0,
        fileCreated := false, madeDir := false, target := none }) ∧
    (∀ ae2 : AudioEnv, ae2.pyaudioOk = true → ae2.openOk = true →
      (record_audio out filename PyDur.nan ae2).result = false ∧
      (record_audio out filename PyDur.nan ae2).deviceTouched = true ∧
      (record_audio out filename PyDur.nan ae2).streamOpened = true ∧
      (record_audio out filename PyDur.nan ae2).streamReleased = false) ∧
    (∀ (ve2 : VideoEnv) (f : String), ve2.camOk = true →
      (record_video out (.str f) PyDur.nan ve2).result = true ∧
      (record_video out (.str f) PyDur.nan ve2).framesWritten = 0 ∧
      (record_video out (.str f) PyDur.nan ve2).fileCreated =
        ve2.dirExists) := by
  refine ⟨?_, ?_, ?_⟩
  · have hcond : ¬ d.isNum = true ∨ d.le0 = true := by
      rcases hbad with h | ⟨q, hq, hle⟩
      · subst h
        exact Or.inl (by simp [PyDur.isNum])
      · subst hq
        exact Or.inr (by simp [PyDur.le0, hle])
    exact ⟨by rw [record_audio.eq_def, if_pos hcond],
      by rw [record_video.eq_def, if_pos hcond]⟩
  · intro ae2 hpa hopen
    rw [record_audio.eq_def, if_neg nan_passes_guard,
      if_neg (by simp [hpa]), if_neg (by simp [hopen]),
      if_pos (show PyDur.nan.isNan = true from rfl)]
    exact ⟨rfl, rfl, rfl, rfl⟩
  · intro ve2 f hcam
    rw [record_video.eq_def, if_neg nan_passes_guard,
      if_neg (by simp [hcam])]
    exact ⟨rfl, rfl, rfl⟩

/-- Witness for C5's amended theorem: rejection at durations 0 and -1, and
the `nan` behaviours at healthy concrete environments. -/
theorem record_invalid_duration_no_side_effects_witness :
    (record_audio "../output" (.str "o.wav") (.num 0)
        { pyaudioOk := true, openOk := true, readOk := fun _ => true,
          dirExists := true, writeOk := true }).result = false ∧
    (record_video "../output" (.str "o.avi") (.num (-1))
        { camOk := true, frameOk := fun _ => true, deadlineIters := 9,
          dirExists := true }).result = false ∧
    (record_audio "../output" (.str "w.wav") PyDur.nan
        { pyaudioOk := true, openOk := true, readOk := fun _ => false,
          dirExists := true, writeOk := true }).streamReleased = false ∧
    (record_video "../output" (.str "w.avi") PyDur.nan
        { camOk := true, frameOk := fun _ => false, deadlineIters := 3,
          dirExists := false }).result = true :=
  have h0 := record_invalid_duration_no_side_effects "../output"
    (.str "o.wav") (.num 0)
    { pyaudioOk := true, openOk := true, readOk := fun _ => true,
      dirExists := true, writeOk := true }
    { camOk := true, frameOk := fun _ => true, deadlineIters := 9,
      dirExists := true }
    (Or.inr ⟨0, rfl, by norm_num⟩)
  have h1 := record_invalid_duration_no_side_effects "../output"
    (.str "o.avi") (.num (-1))
    { pyaudioOk := true, openOk := true, readOk := fun _ => true,
      dirExists := true, writeOk := true }
    { camOk := true, frameOk := fun _ => true, deadlineIters := 9,
      dirExists := true }
    (Or.inr ⟨-1, rfl, by norm_num⟩)
  have h2 := record_invalid_duration_no_side_effects "../output"
    (.str "w.wav") (.num 0)
    { pyaudioOk := true, openOk := true, readOk := fun _ => false,
      dirExists := true, writeOk := true }
    { camOk := true, frameOk := fun _ => false, deadlineIters := 3,
      dirExists := false }
    (Or.inr ⟨0, rfl, by norm_num⟩)
  ⟨by rw [h0.1.1], by rw [h1.1.2],
    (h2.2.1 { pyaudioOk := true, openOk := true, readOk := fun _ => false,
              dirExists := true, writeOk := true } rfl rfl).2.2.2,
    (h2.2.2 { camOk := true, frameOk := fun _ => false, deadlineIters := 3,
              dirExists := false } "w.avi" rfl).1⟩

/-- C6: with a valid positive duration and an opened camera, a frame-read
failure mid-loop is treated as end-of-stream: the loop breaks at the failed
read, camera and writer are both released, and the call returns `True`
having written only the frames that preceded the failure. -/
theorem record_video_read_failure_success (out f : String) (d : ℚ)
    (env : VideoEnv) (i : Nat) (hd : 0 < d) (hcam : env.camOk = true)
    (hfail : env.frameOk i = false)
    (hpre : ∀ j, j < i → env.frameOk j = true)
    (hlt : i < env.deadlineIters) :
    record_video out (.str f) (.num d) env =
      { result := true, camOpened := true, camReleased := true,
        writerOpened := true, writerReleased := true, framesWritten := i,
        fileCreated := env.dirExists, madeDir := false,
        target := some (out ++ "/" ++ f) } := by
  have hfc : framesCaptured env.frameOk env.deadlineIters = i := by
    rw [framesCaptured, firstFail_first env.frameOk _ i hlt hpre hfail]
  rw [record_video.eq_def, if_neg (valid_duration_cond d hd),
    if_neg (by simp [hcam])]
  simp only [if_neg (num_not_nan d), hfc]

/-- Witness for C6: camera ok, reads fail from frame 3 of a 5-second
recording whose deadline admits far more frames. -/
theorem record_video_read_failure_success_witness :
    record_video "../output" (.str "clip.avi") (.num 5)
        { camOk := true, frameOk := fun j => decide (j < 3),
          deadlineIters := 100, dirExists := true } =
      { result := true, camOpened := true, camReleased := true,
        writerOpened := true, writerReleased := true, framesWritten := 3,
        fileCreated := true, madeDir := false,
        target := some ("../output" ++ "/" ++ "clip.avi") } :=
  record_video_read_failure_success "../output" "clip.avi" 5
    { camOk := true, frameOk := fun j => decide (j < 3),
      deadlineIters := 100, dirExists := true } 3 (by norm_num) rfl
    (by decide) (fun j hj => by simp [hj]) (by decide)

/-- C7 counterexample: `play(None)` propagates a `TypeError` past the
facade — `os.path.exists(None)` raises and `Media.play` has no handler. -/
theorem play_none_raises :
    play (MediaState.init "../output") PyVal.none (fun _ => false) =
      .error .typeError := rfl

/-- C7 (amended): every capture or download operation returns a definite
value for every argument, including `None` (their `try` blocks enclose the
raising calls), and `play` returns a definite value for every string
argument; but `play` applied to a non-path argument such as `None`
propagates a `TypeError`, and `download`'s guarantee needs `os.makedirs`
to succeed because the directory creation runs outside its handlers. -/
theorem facade_definite_results :
    (∀ (st : MediaState) (s : String) (fs : String → Bool),
      ∃ r st2, play st (.str s) fs = .ok (r, st2)) ∧
    (∀ (out : String) (d : PyDur) (env : AudioEnv),
      (record_audio out PyVal.none d env).result = false) ∧
    (∀ (out : String) (d : PyDur) (env : VideoEnv),
      (record_video out PyVal.none d env).result = false) ∧
    (∀ (out : String) (env : ShotEnv),
      (screenshot out PyVal.none env).result = false) ∧
    (∀ (out : String) (url : PyVal) (env : DlEnv), env.mkdirOk = true →
      ∃ o, download out url env = .ok o) := by
  refine ⟨?_, ?_, ?_, ?_, ?_⟩
  · intro st s fs
    by_cases hfs : fs s = true
    · by_cases halive : threadAlive st = true
      · exact ⟨.busy, st, by simp [play, ospathExists, hfs, halive]⟩
      · exact ⟨.started,
          { st with stop_event := false, playback_thread := some ⟨true⟩ },
          by simp [play, ospathExists, hfs, bool_not_true halive]⟩
    · exact ⟨.fileNotFound, st,
        by simp [play, ospathExists, bool_not_true hfs]⟩
  · intro out d env
    rw [record_audio.eq_def]
    split
    · rfl
    · split
      · rfl
      · split
        · rfl
        · split
          · rfl
          · split
            · rfl
            · rfl
  · intro out d env
    rw [record_video.eq_def]
    split
    · rfl
    · split
      · rfl
      · rfl
  · intro out env
    rfl
  · intro out url env hmk
    cases url with
    | none => exact ⟨⟨none, false⟩, rfl⟩
    | str u =>
      by_cases hu : u = ""
      · exact ⟨⟨none, false⟩, by simp [download, hu]⟩
      · by_cases hdir : env.dirExists = true
        · by_cases hdl : env.dlOk = true
          · exact ⟨⟨some (out ++ "/" ++ env.dlName), false⟩,
              by simp [download, hu, hdir, hdl]⟩
          · exact ⟨⟨none, false⟩,
              by simp [download, hu, hdir, bool_not_true hdl]⟩
        · have hdir2 : env.dirExists = false := bool_not_true hdir
          by_cases hdl : env.dlOk = true
          · exact ⟨⟨some (out ++ "/" ++ env.dlName), true⟩,
              by simp [download, hu, hdir2, hmk, hdl]⟩
          · exact ⟨⟨none, true⟩,
              by simp [download, hu, hdir2, hmk, bool_not_true hdl]⟩

/-- Witness for C7's amended theorem: a definite `play` on a string and a
definite `download` with a succeeding `makedirs`. -/
theorem facade_definite_results_witness :
    (∃ r st2, play (MediaState.init "../output") (.str "a.mp4")
        (fun _ => false) = .ok (r, st2)) ∧
    (∃ o, download "../output" PyVal.none
        { dirExists := false, mkdirOk := true, dlOk := true,
          dlName := "v.mp4" } = .ok o) :=
  ⟨facade_definite_results.1 (MediaState.init "../output") "a.mp4"
      (fun _ => false),
    facade_definite_results.2.2.2.2 "../output" PyVal.none
      { dirExists := false, mkdirOk := true, dlOk := true,
        dlName := "v.mp4" } rfl⟩

/-- C8 counterexample: with every device healthy but the output directory
absent, `record_audio` returns `False` and creates nothing — it does not
create the directory on first use, so the operation fails merely because
the directory is absent. -/
theorem record_audio_fails_absent_dir :
    record_audio "../output" (.str "o.wav") (.num 1)
        { pyaudioOk := true, openOk := true, readOk := fun _ => true,
          dirExists := false, writeOk := true } =
      { result := false, deviceTouched := true, streamOpened := true,
        streamReleased := true, terminated := true, chunksRead := 43,
        fileCreated := false, madeDir := false,
        target := some ("../output" ++ "/" ++ "o.wav") } := by
  decide

/-- C8 (amended): every output path is formed under the configured output
directory, but only `download` creates that directory when it is absent;
`record_audio`, `record_video` and `screenshot` never call `makedirs`,
and `record_audio` fails (returns `False`) when the directory is absent. -/
theorem output_dir_policy (out : String) :
    (∀ (u : String) (env : DlEnv), u ≠ "" → env.dirExists = false →
      env.mkdirOk = true →
      ∃ o, download out (.str u) env = .ok o ∧ o.madeDir = true) ∧
    (∀ filename d (env : AudioEnv),
      (record_audio out filename d env).madeDir = false) ∧
    (∀ filename d (env : VideoEnv),
      (record_video out filename d env).madeDir = false) ∧
    (∀ filename (env : ShotEnv),
      (screenshot out filename env).madeDir = false) ∧
    (∀ filename d (env : AudioEnv) (p : String),
      (record_audio out filename d env).target = some p →
      ∃ r, p = out ++ "/" ++ r) ∧
    (∀ filename d (env : VideoEnv) (p : String),
      (record_video out filename d env).target = some p →
      ∃ r, p = out ++ "/" ++ r) ∧
    (∀ filename (env : ShotEnv) (p : String),
      (screenshot out filename env).target = some p →
      ∃ r, p = out ++ "/" ++ r) ∧
    (∀ (url : PyVal) (env : DlEnv) (o : DlOutcome) (p : String),
      download out url env = .ok o → o.filePath = some p →
      ∃ r, p = out ++ "/" ++ r) ∧
    (∀ (d : ℚ) (f : String) (env : AudioEnv), 0 < d →
      env.dirExists = false → (record_audio out (.str f) (.num d) env).result = false) := by
  refine ⟨?_, ?_, ?_, ?_, ?_, ?_, ?_, ?_, ?_⟩
  · intro u env hu hdir hmk
    by_cases hdl : env.dlOk = true
    · exact ⟨⟨some (out ++ "/" ++ env.dlName), true⟩,
        by simp [download, hu, hdir, hmk, hdl], rfl⟩
    · exact ⟨⟨none, true⟩,
        by simp [download, hu, hdir, hmk, bool_not_true hdl], rfl⟩
  · intro filename d env
    rw [record_audio.eq_def]
    split
    · rfl
    · split
      · rfl
      · split
        · rfl
        · split
          · rfl
          · split
            · rfl
            · split
              · rfl
              · split
                · rfl
                · split
                  · rfl
                  · rfl
  · intro filename d env
    rw [record_video.eq_def]
    split
    · rfl
    · split
      · rfl
      · split
        · rfl
        · rfl
  · intro filename env
    rw [screenshot.eq_def]
    split
    · rfl
    · split
      · rfl
      · split
        · rfl
        · split
          · rfl
          · rfl
  · intro filename d env p
    rw [record_audio.eq_def]
    split
    · intro h; exact Option.noConfusion h
    · split
      · intro h; exact Option.noConfusion h
      · split
        · intro h; exact Option.noConfusion h
        · split
          · intro h; exact Option.noConfusion h
          · split
            · intro h; exact Option.noConfusion h
            · split
              · intro h; exact Option.noConfusion h
              · split
                · intro h
                  exact ⟨_, (Option.some.inj h).symm⟩
                · split
                  · intro h
                    exact ⟨_, (Option.some.inj h).symm⟩
                  · intro h
                    exact ⟨_, (Option.some.inj h).symm⟩
  · intro filename d env p
    rw [record_video.eq_def]
    split
    · intro h; exact Option.noConfusion h
    · split
      · intro h; exact Option.noConfusion h
      · split
        · intro h; exact Option.noConfusion h
        · intro h
          exact ⟨_, (Option.some.inj h).symm⟩
  · intro filename env p
    rw [screenshot.eq_def]
    split
    · intro h; exact Option.noConfusion h
    · split
      · intro h
        exact ⟨_, (Option.some.inj h).symm⟩
      · split
        · intro h
          exact ⟨_, (Option.some.inj h).symm⟩
        · split
          · intro h
            exact ⟨_, (Option.some.inj h).symm⟩
          · intro h
            exact ⟨_, (Option.some.inj h).symm⟩
  · intro url env o p hok hpath
    cases url with
    | none =>
      rw [show download out PyVal.none env = .ok ⟨none, false⟩ from rfl] at hok
      cases Except.ok.inj hok
      exact Option.noConfusion hpath
    | str u =>
      rw [show download out (.str u) env =
        (if u = "" then .ok ⟨none, false⟩
         else if ¬ env.dirExists then
           if ¬ env.mkdirOk then .error .osError
           else if env.dlOk then
             .ok ⟨some (out ++ "/" ++ env.dlName), true⟩
           else .ok ⟨none, true⟩
         else
           if env.dlOk then
             .ok ⟨some (out ++ "/" ++ env.dlName), false⟩
           else .ok ⟨none, false⟩) from rfl] at hok
      by_cases hu : u = ""
      · rw [if_pos hu] at hok
        cases Except.ok.inj hok
        exact Option.noConfusion hpath
      · rw [if_neg hu] at hok
        by_cases hdir : env.dirExists = true
        · rw [if_neg (by simp [hdir])] at hok
          by_cases hdl : env.dlOk = true
          · rw [if_pos hdl] at hok
            cases Except.ok.inj hok
            exact ⟨env.dlName, (Option.some.inj hpath).symm⟩
          · rw [if_neg hdl] at hok
            cases Except.ok.inj hok
            exact Option.noConfusion hpath
        · rw [if_pos (by simpa using hdir)] at hok
          by_cases hmk : env.mkdirOk = true
          · rw [if_neg (by simp [hmk])] at hok
            by_cases hdl : env.dlOk = true
            · rw [if_pos hdl] at hok
              cases Except.ok.inj hok
              exact ⟨env.dlName, (Option.some.inj hpath).symm⟩
            · rw [if_neg hdl] at hok
              cases Except.ok.inj hok
              exact Option.noConfusion hpath
          · rw [if_pos (by simpa using hmk)] at hok
            exact Except.noConfusion hok
  · intro d f env hd hdir
    rw [record_audio.eq_def, if_neg (valid_duration_cond d hd)]
    split
    · rfl
    · split
      · rfl
      · split
        · rfl
        · split
          · rfl
          · simp [hdir]

/-- Witness for C8's amended theorem at concrete inputs: `download` creates
the absent directory; the recorders' target paths sit under the output
directory; `record_audio` fails with the directory absent. -/
theorem output_dir_policy_witness :
    (∃ o, download "../output" (.str "http://example/v")
        { dirExists := false, mkdirOk := true, dlOk := true,
          dlName := "v.mp4" } = .ok o ∧ o.madeDir = true) ∧
    (∃ r, "../output" ++ "/" ++ "o.wav" = "../output" ++ "/" ++ r) ∧
    (∃ r, "../output" ++ "/" ++ "c.avi" = "../output" ++ "/" ++ r) ∧
    (∃ r, "../output" ++ "/" ++ "s.png" = "../output" ++ "/" ++ r) ∧
    (∃ r, "../output" ++ "/" ++ "v.mp4" = "../output" ++ "/" ++ r) ∧
    (record_audio "../output" (.str "o.wav") (.num 1)
        { pyaudioOk := true, openOk := true, readOk := fun _ => true,
          dirExists := false, writeOk := true }).result = false :=
  ⟨(output_dir_policy "../output").1 "http://example/v"
      { dirExists := false, mkdirOk := true, dlOk := true,
        dlName := "v.mp4" } (by decide) rfl rfl,
    (output_dir_policy "../output").2.2.2.2.1 (.str "o.wav") (.num 1)
      { pyaudioOk := true, openOk := true, readOk := fun _ => true,
        dirExists := true, writeOk := true }
      ("../output" ++ "/" ++ "o.wav") (by decide),
    (output_dir_policy "../output").2.2.2.2.2.1 (.str "c.avi") (.num 1)
      { camOk := true, frameOk := fun _ => true, deadlineIters := 4,
        dirExists := true } ("../output" ++ "/" ++ "c.avi") (by decide),
    (output_dir_policy "../output").2.2.2.2.2.2.1 (.str "s.png")
      { grabOk := true, dirExists := true, saveOk := true }
      ("../output" ++ "/" ++ "s.png") (by decide),
    (output_dir_policy "../output").2.2.2.2.2.2.2.1 (.str "http://example/v")
      { dirExists := true, mkdirOk := true, dlOk := true, dlName := "v.mp4" }
      { filePath := some ("../output" ++ "/" ++ "v.mp4"), madeDir := false }
      ("../output" ++ "/" ++ "v.mp4") rfl rfl,
    (output_dir_policy "../output").2.2.2.2.2.2.2.2 1 "o.wav"
      { pyaudioOk := true, openOk := true, readOk := fun _ => true,
        dirExists := false, writeOk := true } (by norm_num) rfl⟩

end OfficeTool
